import Mathlib

/-!
Shallow embedding of `nautilus_core/adapters/src/tardis/http/client.rs`
(the Tardis HTTP API client of nautilus_trader) and proofs about it.

The file models:
  - the `Error` enum and its two `From` conversions (lines 29-38 of the source);
  - the `TardisHttpClient` struct (lines 46-50);
  - `TardisHttpClient::new` (lines 54-69), with the process environment made
    an explicit argument and the `expect` panic modelled as `none` (the Rust
    signature returns `Self`, not `Result`, so `none` can only be the abort);
  - `instruments` and `instrument` (lines 73-102), with the external transport
    (the `reqwest` crate) made an explicit argument: `send()` and
    `Response::json::<T>()` both return `Result<_, reqwest::Error>` in reqwest,
    so both steps of the pipeline fail with a `ReqwestError`, and each `?` in
    the source converts that error into `Error` through
    `impl From<reqwest::Error> for Error`, i.e. into the `Request` variant.

Items of the repository that the claims need but that are outside the provided
source slice (`Exchange`, `TARDIS_BASE_URL`, `USER_AGENT`, `Response`,
`InstrumentInfo`) are modelled from the specification and marked as such.
-/

namespace Tardis

/-- Modelled from the spec: `Exchange` (repo file `tardis/enums.rs`, not in the
provided source slice) is "a closed enumeration identifying a supported trading
venue". A representative closed set of venues. -/
inductive Exchange
  | Binance
  | Bitmex
  | Deribit
  | Okex
deriving DecidableEq, Repr

/-- Modelled from the spec: the canonical string form of an `Exchange` (its
`Display` implementation), the form substituted into request paths. The only
value the spec pins down is that `Binance` renders as "binance" (scenario in
spec section 8); the others follow the same lowercase convention. -/
def Exchange.display : Exchange → String
  | .Binance => "binance"
  | .Bitmex => "bitmex"
  | .Deribit => "deribit"
  | .Okex => "okex"

/-- Modelled from the spec: the "predefined constant endpoint" used when no
base URL is supplied (`TARDIS_BASE_URL` in `tardis/mod.rs`, not in the provided
source slice): "a documented constant for this provider's HTTP API". -/
def TARDIS_BASE_URL : String := "https://api.tardis.dev/v1"

/-- Modelled from the spec: the "fixed identifying header" string
(`USER_AGENT` from `nautilus_common`, not in the provided source slice). -/
def USER_AGENT : String := "NautilusTrader"

/-- Modelled from the spec: one instrument metadata record, opaque to the
client beyond carrying an identifier (spec section 8 scenario). -/
structure InstrumentInfo where
  id : String
deriving DecidableEq, Repr

/-- Modelled from the spec: the generic envelope wrapping the payload returned
by the remote API; the client does not interpret it beyond deserializing. -/
structure Response (T : Type) where
  payload : T
deriving DecidableEq, Repr

/-- The error type of the external `reqwest` crate (`reqwest::Error`). Both
`RequestBuilder::send` and `Response::json::<T>` return
`Result<_, reqwest::Error>`: a transport failure is an error of send kind, and
a response body that fails to deserialize as `T` is an error of decode kind
(still a `reqwest::Error`, not a `serde_json::Error`). -/
inductive ReqwestError
  | send (msg : String)
  | decode (msg : String)
deriving DecidableEq, Repr

/-- The error type of the external `serde_json` crate (`serde_json::Error`). -/
structure SerdeJsonError where
  msg : String
deriving DecidableEq, Repr

/-- The `Error` enum of `client.rs` (lines 29-38): `Request` wraps a
`reqwest::Error`, `Deserialization` wraps a `serde_json::Error`. -/
inductive Error
  | Request (e : ReqwestError)
  | Deserialization (e : SerdeJsonError)
deriving DecidableEq, Repr

/-- The `#[from] reqwest::Error` conversion derived by thiserror:
`impl From<reqwest::Error> for Error`, used by every `?` in the two methods. -/
def Error.fromReqwest (e : ReqwestError) : Error := .Request e

/-- The `#[from] serde_json::Error` conversion derived by thiserror:
`impl From<serde_json::Error> for Error`. -/
def Error.fromSerdeJson (e : SerdeJsonError) : Error := .Deserialization e

/-- The transport handle built in `new`: `reqwest::Client::builder()
.user_agent(USER_AGENT.clone()).build().unwrap()`. Its only configuration
visible in the source is the user-agent string. -/
structure ReqwestClient where
  user_agent : String
deriving DecidableEq, Repr

/-- The `TardisHttpClient` struct (`client.rs` lines 46-50). -/
structure TardisHttpClient where
  base_url : String
  api_key : String
  client : ReqwestClient
deriving DecidableEq, Repr

/-- `TardisHttpClient::new` (`client.rs` lines 54-69).

`env_TARDIS_API_KEY` makes the implicit read of the `TARDIS_API_KEY` process
environment variable explicit: `none` models the variable being unavailable
(the error case of `env::var`). The result `none` models the process-aborting
panic of `expect`: the Rust function returns `Self`, not a `Result`, so a
`none` here corresponds to no normal return at all.

Mirrors `api_key.map(ToString::to_string).unwrap_or_else(|| env::var("TARDIS_API_KEY").expect(..))`
followed by the struct literal with `base_url.unwrap_or(TARDIS_BASE_URL)`. -/
def TardisHttpClient.new (api_key : Option String) (base_url : Option String)
    (env_TARDIS_API_KEY : Option String) : Option TardisHttpClient :=
  match api_key with
  | some k =>
      some { base_url := base_url.getD TARDIS_BASE_URL
             api_key := k
             client := { user_agent := USER_AGENT } }
  | none =>
      match env_TARDIS_API_KEY with
      | some k =>
          some { base_url := base_url.getD TARDIS_BASE_URL
                 api_key := k
                 client := { user_agent := USER_AGENT } }
      | none => none

/-- One outbound HTTP GET request as the client assembles it:
`self.client.get(url).bearer_auth(&self.api_key)`. -/
structure HttpRequest where
  url : String
  bearer_token : String
deriving DecidableEq, Repr

/-- The URL built by `instruments`:
`format!("{}/instruments/{exchange}", &self.base_url)`. -/
def TardisHttpClient.instrumentsUrl (c : TardisHttpClient) (exchange : Exchange) : String :=
  c.base_url ++ "/instruments/" ++ exchange.display

/-- The URL built by `instrument`:
`format!("{}/instruments/{exchange}/{symbol}", &self.base_url)`; the symbol is
substituted verbatim, no escaping or validation. -/
def TardisHttpClient.instrumentUrl (c : TardisHttpClient) (exchange : Exchange)
    (symbol : String) : String :=
  c.base_url ++ "/instruments/" ++ exchange.display ++ "/" ++ symbol

/-- The request `instruments` hands to the transport:
`self.client.get(format!(..)).bearer_auth(&self.api_key)`. -/
def TardisHttpClient.instrumentsRequest (c : TardisHttpClient) (exchange : Exchange) :
    HttpRequest :=
  { url := c.instrumentsUrl exchange, bearer_token := c.api_key }

/-- The request `instrument` hands to the transport. -/
def TardisHttpClient.instrumentRequest (c : TardisHttpClient) (exchange : Exchange)
    (symbol : String) : HttpRequest :=
  { url := c.instrumentUrl exchange symbol, bearer_token := c.api_key }

/-- The external collaborators of one call, as the client observes them:
`send()` either fails with a `reqwest::Error` or yields a response (whose body
we keep as a string), and `Response::json::<T>()` either fails with a
`reqwest::Error` of decode kind or yields a `T`. -/
structure Transport (T : Type) where
  send : HttpRequest → Except ReqwestError String
  json : String → Except ReqwestError T

/-- `TardisHttpClient::instruments` (`client.rs` lines 73-82): build the
request, `send().await?`, then `.json::<Response<Vec<InstrumentInfo>>>().await?`.
Each `?` applies `From<reqwest::Error> for Error`, i.e. `Error.fromReqwest`. -/
def TardisHttpClient.instruments (c : TardisHttpClient) (exchange : Exchange)
    (world : Transport (Response (List InstrumentInfo))) :
    Except Error (Response (List InstrumentInfo)) :=
  match world.send (c.instrumentsRequest exchange) with
  | .error e => .error (Error.fromReqwest e)
  | .ok body =>
      match world.json body with
      | .error e => .error (Error.fromReqwest e)
      | .ok v => .ok v

/-- `TardisHttpClient::instrument` (`client.rs` lines 86-102): same pipeline
with the single-record payload type. -/
def TardisHttpClient.instrument (c : TardisHttpClient) (exchange : Exchange)
    (symbol : String) (world : Transport (Response InstrumentInfo)) :
    Except Error (Response InstrumentInfo) :=
  match world.send (c.instrumentRequest exchange symbol) with
  | .error e => .error (Error.fromReqwest e)
  | .ok body =>
      match world.json body with
      | .error e => .error (Error.fromReqwest e)
      | .ok v => .ok v

/-- One call of the client API together with its external world, for stating
frame properties over call sequences. -/
inductive Call
  | instruments (exchange : Exchange)
      (world : Transport (Response (List InstrumentInfo)))
  | instrument (exchange : Exchange) (symbol : String)
      (world : Transport (Response InstrumentInfo))

/-- Both methods take `&self` (a shared borrow of a struct with no interior
mutability used by them), so the client after a call is the client before it:
the step form makes that state passing explicit. -/
def TardisHttpClient.runCall (c : TardisHttpClient) : Call → TardisHttpClient
  | .instruments exchange world =>
      let _ := c.instruments exchange world
      c
  | .instrument exchange symbol world =>
      let _ := c.instrument exchange symbol world
      c

/-- The client state after a sequence of calls. -/
def TardisHttpClient.runCalls (c : TardisHttpClient) (calls : List Call) :
    TardisHttpClient :=
  calls.foldl TardisHttpClient.runCall c

/-- A concrete client, matching the scenario of spec section 8:
`api_key = "k1"`, `base_url = "http://example.test"`. -/
def exampleClient : TardisHttpClient :=
  { base_url := "http://example.test", api_key := "k1"
    client := { user_agent := USER_AGENT } }

/-- A client with the same `base_url` and `api_key` as `exampleClient` but a
different transport handle. -/
def exampleClientB : TardisHttpClient :=
  { base_url := "http://example.test", api_key := "k1"
    client := { user_agent := "other-agent" } }

/-- A world where the HTTP exchange succeeds (a body arrives) but the body,
though valid JSON, does not match the expected envelope shape, so
`Response::json` fails with a decode-kind `reqwest::Error`. -/
def shapeMismatchWorldList : Transport (Response (List InstrumentInfo)) :=
  { send := fun _ => .ok "[1,2,3]"
    json := fun _ => .error (.decode "error decoding response body") }

/-- Same mismatching world for the single-record endpoint. -/
def shapeMismatchWorldSingle : Transport (Response InstrumentInfo) :=
  { send := fun _ => .ok "[1,2,3]"
    json := fun _ => .error (.decode "error decoding response body") }

/-- A world where the transport layer fails to send the request. -/
def failWorldList : Transport (Response (List InstrumentInfo)) :=
  { send := fun _ => .error (.send "connection refused")
    json := fun _ => .error (.decode "no body") }

/-- Same failing world for the single-record endpoint. -/
def failWorldSingle : Transport (Response InstrumentInfo) :=
  { send := fun _ => .error (.send "connection refused")
    json := fun _ => .error (.decode "no body") }

/-- A single call never changes the client: both methods borrow `&self`. -/
theorem runCall_fix (c : TardisHttpClient) (call : Call) : c.runCall call = c := by
  cases call <;> rfl

/-- A sequence of calls never changes the client. -/
theorem runCalls_fix (c : TardisHttpClient) (calls : List Call) :
    c.runCalls calls = c := by
  induction calls generalizing c with
  | nil => rfl
  | cons a as ih =>
      show List.foldl TardisHttpClient.runCall (c.runCall a) as = c
      rw [runCall_fix]
      exact ih c

/-- C1: the claim says a successful HTTP exchange whose body does not parse as
the expected envelope yields the Deserialization error kind. The code disagrees:
the decode failure is a `reqwest::Error` returned by `Response::json`, and the
`?` operator converts it through `From<reqwest::Error> for Error` into the
`Request` variant; the `Deserialization` variant (fed only by
`From<serde_json::Error>`) is unreachable from `instruments` and `instrument`.
Evaluated here at the failing input: both methods return a Request-kind error,
and neither result is a Deserialization-kind error. -/
theorem C1_shape_mismatch_surfaces_as_Request :
    exampleClient.instruments Exchange.Binance shapeMismatchWorldList
        = Except.error (Error.Request (ReqwestError.decode "error decoding response body"))
      ∧ exampleClient.instrument Exchange.Binance "BTCUSDT" shapeMismatchWorldSingle
        = Except.error (Error.Request (ReqwestError.decode "error decoding response body"))
      ∧ (∀ e, exampleClient.instruments Exchange.Binance shapeMismatchWorldList
          ≠ Except.error (Error.Deserialization e))
      ∧ ∀ e, exampleClient.instrument Exchange.Binance "BTCUSDT" shapeMismatchWorldSingle
          ≠ Except.error (Error.Deserialization e) := by
  refine ⟨rfl, rfl, fun e h => ?_, fun e h => ?_⟩ <;>
    · injection h with h2
      injection h2

/-- C2 counterexample: the claim says construction with an empty-string
`api_key` argument fails. It does not: `new(Some(""), ..)` returns a client
whose stored key is the empty string. -/
theorem C2_counterexample_empty_key_accepted :
    TardisHttpClient.new (some "") (some "http://example.test") none
      = some { base_url := "http://example.test", api_key := ""
               client := { user_agent := USER_AGENT } } := rfl

/-- C2 amended: the stored `api_key` is exactly the provided argument, or the
environment value when the argument is absent, verbatim and possibly empty;
construction fails only when both are absent; and no sequence of calls ever
changes the stored key. -/
theorem C2_amended_key_verbatim_and_immutable (api_key base_url env : Option String)
    (c : TardisHttpClient)
    (h : TardisHttpClient.new api_key base_url env = some c) :
    some c.api_key = (api_key <|> env)
      ∧ ∀ calls, (c.runCalls calls).api_key = c.api_key := by
  refine ⟨?_, fun calls => by rw [runCalls_fix]⟩
  cases api_key with
  | some k => cases h.symm; rfl
  | none =>
      cases env with
      | some k => cases h.symm; rfl
      | none => cases h

/-- Witness for C2 amended at the concrete construction
`new(Some("k1"), Some("http://example.test"))` with no environment variable. -/
theorem C2_amended_witness :
    some (exampleClient.api_key) = (some "k1" <|> (none : Option String))
      ∧ (exampleClient.runCalls
          [Call.instruments Exchange.Binance failWorldList]).api_key
        = exampleClient.api_key :=
  ⟨(C2_amended_key_verbatim_and_immutable (some "k1") (some "http://example.test")
      none exampleClient rfl).1,
   (C2_amended_key_verbatim_and_immutable (some "k1") (some "http://example.test")
      none exampleClient rfl).2 [Call.instruments Exchange.Binance failWorldList]⟩

/-- C3: for every client built by `new` and every exchange, the URL of the
request built by `instruments` is exactly the stored base URL (the supplied one
or the default), then "/instruments/", then the exchange's canonical string
form — nothing else. -/
theorem C3_instruments_url_exact (api_key : String) (base_url env : Option String)
    (c : TardisHttpClient) (exchange : Exchange)
    (h : TardisHttpClient.new (some api_key) base_url env = some c) :
    (c.instrumentsRequest exchange).url
      = base_url.getD TARDIS_BASE_URL ++ "/instruments/" ++ exchange.display := by
  cases h.symm
  rfl

/-- Witness for C3 at the spec scenario client and `Binance`. -/
theorem C3_witness :
    (exampleClient.instrumentsRequest Exchange.Binance).url
      = (some "http://example.test" : Option String).getD TARDIS_BASE_URL
          ++ "/instruments/" ++ Exchange.Binance.display :=
  C3_instruments_url_exact "k1" (some "http://example.test") none exampleClient
    Exchange.Binance rfl

/-- C4: for every client, exchange and symbol — including the empty symbol and
symbols holding URL-special characters, since `symbol` ranges over all strings —
the URL built by `instrument` is exactly the base URL, "/instruments/", the
exchange's canonical form, "/", then the symbol verbatim: no escaping,
validation or transformation. -/
theorem C4_instrument_url_symbol_verbatim (c : TardisHttpClient)
    (exchange : Exchange) (symbol : String) :
    (c.instrumentRequest exchange symbol).url
      = c.base_url ++ "/instruments/" ++ exchange.display ++ "/" ++ symbol := rfl

/-- C5: every request built by `instruments` and by `instrument` carries as its
bearer token exactly the api_key stored at construction, for all exchanges and
symbols. -/
theorem C5_bearer_token_is_construction_key (k : String) (base_url env : Option String)
    (c : TardisHttpClient) (exchange : Exchange) (symbol : String)
    (h : TardisHttpClient.new (some k) base_url env = some c) :
    (c.instrumentsRequest exchange).bearer_token = k
      ∧ (c.instrumentRequest exchange symbol).bearer_token = k := by
  cases h.symm
  exact ⟨rfl, rfl⟩

/-- Witness for C5: the spec scenario — client with key "k1", call
`instrument(Binance, "BTCUSDT")`; the bearer token is "k1". -/
theorem C5_witness :
    (exampleClient.instrumentsRequest Exchange.Binance).bearer_token = "k1"
      ∧ (exampleClient.instrumentRequest Exchange.Binance "BTCUSDT").bearer_token
        = "k1" :=
  C5_bearer_token_is_construction_key "k1" (some "http://example.test") none
    exampleClient Exchange.Binance "BTCUSDT" rfl

/-- C6 counterexample: the claim says a URL built after `new` received
`Some(base_url)` is never prefixed by the default constant. Passing the default
constant itself as the override refutes that: construction succeeds and the
URL built by `instruments` starts with the default constant. -/
theorem C6_counterexample_override_can_be_default :
    ∃ c, TardisHttpClient.new (some "k1") (some TARDIS_BASE_URL) none = some c
      ∧ ∃ tail, (c.instrumentsRequest Exchange.Binance).url
          = TARDIS_BASE_URL ++ tail :=
  ⟨_, rfl, "/instruments/" ++ Exchange.Binance.display,
    (String.append_assoc _ _ _)⟩

/-- C6 amended: with `Some(b)` the stored base URL is `b` and every URL built
by `instruments` or `instrument` is `b` followed by the endpoint path (so it is
prefixed by the default constant only when that prefix extends through `b`
itself, e.g. when the override equals the default); with `None` the stored base
URL equals the default constant. -/
theorem C6_amended_override_used (k : String) (env : Option String) :
    (∀ b c, TardisHttpClient.new (some k) (some b) env = some c →
        c.base_url = b
          ∧ (∀ exchange, ∃ tail,
              (c.instrumentsRequest exchange).url = b ++ tail)
          ∧ ∀ exchange symbol, ∃ tail,
              (c.instrumentRequest exchange symbol).url = b ++ tail)
      ∧ ∀ c, TardisHttpClient.new (some k) none env = some c →
          c.base_url = TARDIS_BASE_URL := by
  constructor
  · intro b c h
    cases h.symm
    refine ⟨rfl, fun exchange => ⟨"/instruments/" ++ exchange.display, ?_⟩,
      fun exchange symbol =>
        ⟨"/instruments/" ++ exchange.display ++ "/" ++ symbol, ?_⟩⟩
    · exact String.append_assoc _ _ _
    · simp [TardisHttpClient.instrumentRequest, TardisHttpClient.instrumentUrl,
        String.append_assoc]
  · intro c h
    cases h.symm
    rfl

/-- Witness for C6 amended at the override "http://example.test". -/
theorem C6_amended_witness :
    exampleClient.base_url = "http://example.test"
      ∧ ∃ tail, (exampleClient.instrumentsRequest Exchange.Binance).url
          = "http://example.test" ++ tail :=
  ⟨((C6_amended_override_used "k1" none).1 "http://example.test" exampleClient
      rfl).1,
   ((C6_amended_override_used "k1" none).1 "http://example.test" exampleClient
      rfl).2.1 Exchange.Binance⟩

/-- C7: `new(None, base_url)` has no normal return (the `expect` panic, an
abort rather than a recoverable error value, since the function returns `Self`
and not a `Result`) exactly when the `TARDIS_API_KEY` environment variable is
unavailable; and with `Some(k)` construction succeeds with key `k` no matter
what the environment holds. -/
theorem C7_panics_iff_env_unavailable (base_url env : Option String) (k : String) :
    (TardisHttpClient.new none base_url env = none ↔ env = none)
      ∧ (∀ env2, TardisHttpClient.new (some k) base_url env
          = TardisHttpClient.new (some k) base_url env2)
      ∧ ∀ c, TardisHttpClient.new (some k) base_url env = some c → c.api_key = k := by
  refine ⟨?_, fun env2 => rfl, fun c h => by cases h.symm; rfl⟩
  cases env with
  | none => simp [TardisHttpClient.new]
  | some v => simp [TardisHttpClient.new]

/-- Witness for C7: with the variable unset, `new(None, None)` aborts; with
`Some("k")` it succeeds and stores "k". -/
theorem C7_witness :
    TardisHttpClient.new none none none = none
      ∧ ({ base_url := TARDIS_BASE_URL, api_key := "k"
           client := { user_agent := USER_AGENT } } : TardisHttpClient).api_key
        = "k" :=
  ⟨(C7_panics_iff_env_unavailable none none "k").1.mpr rfl,
   (C7_panics_iff_env_unavailable none none "k").2.2 _ rfl⟩

/-- C8: whenever the transport fails to send the request or receive a
response, both methods return exactly the Request error kind wrapping that very
transport error — no Deserialization kind, no panic (the functions are total
and return a value), no modification, and no retry (the definition consults the
transport once). -/
theorem C8_transport_failure_is_Request_error (c : TardisHttpClient)
    (exchange : Exchange) (symbol : String) (e : ReqwestError)
    (w1 : Transport (Response (List InstrumentInfo)))
    (w2 : Transport (Response InstrumentInfo))
    (h1 : w1.send (c.instrumentsRequest exchange) = .error e)
    (h2 : w2.send (c.instrumentRequest exchange symbol) = .error e) :
    c.instruments exchange w1 = Except.error (Error.Request e)
      ∧ c.instrument exchange symbol w2 = Except.error (Error.Request e) := by
  constructor
  · unfold TardisHttpClient.instruments
    rw [h1]
    rfl
  · unfold TardisHttpClient.instrument
    rw [h2]
    rfl

/-- Witness for C8 at a concrete unreachable endpoint. -/
theorem C8_witness :
    exampleClient.instruments Exchange.Binance failWorldList
        = Except.error (Error.Request (ReqwestError.send "connection refused"))
      ∧ exampleClient.instrument Exchange.Binance "BTCUSDT" failWorldSingle
        = Except.error (Error.Request (ReqwestError.send "connection refused")) :=
  C8_transport_failure_is_Request_error exampleClient Exchange.Binance "BTCUSDT"
    (ReqwestError.send "connection refused") failWorldList failWorldSingle rfl rfl

/-- C9: no operation mutates the client: after any sequence of `instruments`
and `instrument` calls the client equals the client before, and each single
call leaves `base_url`, `api_key` and the transport handle unchanged. -/
theorem C9_calls_never_mutate_client (c : TardisHttpClient) (calls : List Call) :
    c.runCalls calls = c
      ∧ ∀ call, (c.runCall call).base_url = c.base_url
          ∧ (c.runCall call).api_key = c.api_key
          ∧ (c.runCall call).client = c.client :=
  ⟨runCalls_fix c calls,
   fun call => by rw [runCall_fix]; exact ⟨rfl, rfl, rfl⟩⟩

/-- C10: the requests built by both methods are a deterministic function of the
stored `base_url` and `api_key` and the call arguments alone: two clients
agreeing on those fields build identical requests (even with different
transport handles), and the environment is consulted only at construction —
and not even then when the key argument is supplied, so changing
`TARDIS_API_KEY` between calls affects nothing. -/
theorem C10_requests_depend_only_on_fields (c1 c2 : TardisHttpClient)
    (hb : c1.base_url = c2.base_url) (hk : c1.api_key = c2.api_key)
    (exchange : Exchange) (symbol : String) :
    c1.instrumentsRequest exchange = c2.instrumentsRequest exchange
      ∧ c1.instrumentRequest exchange symbol = c2.instrumentRequest exchange symbol
      ∧ ∀ (k : String) (b env1 env2 : Option String),
          TardisHttpClient.new (some k) b env1
            = TardisHttpClient.new (some k) b env2 := by
  refine ⟨?_, ?_, fun k b env1 env2 => rfl⟩ <;>
    simp [TardisHttpClient.instrumentsRequest, TardisHttpClient.instrumentRequest,
      TardisHttpClient.instrumentsUrl, TardisHttpClient.instrumentUrl, hb, hk]

/-- Witness for C10: two clients differing only in the transport handle build
the same request, and construction with an explicit key ignores the
environment. -/
theorem C10_witness :
    exampleClient.instrumentsRequest Exchange.Binance
        = exampleClientB.instrumentsRequest Exchange.Binance
      ∧ TardisHttpClient.new (some "k1") none (some "env-a")
        = TardisHttpClient.new (some "k1") none (some "env-b") :=
  ⟨(C10_requests_depend_only_on_fields exampleClient exampleClientB rfl rfl
      Exchange.Binance "BTCUSDT").1,
   (C10_requests_depend_only_on_fields exampleClient exampleClientB rfl rfl
      Exchange.Binance "BTCUSDT").2.2 "k1" none (some "env-a") (some "env-b")⟩

end Tardis
